import Mathlib

/-!
Verification of the two-box elastic collision simulator of this
repository: the Box class of Box.py and elastic_collision_sim of
tools.py.  Python floats are modelled by rationals; a Python float
division by zero raises ZeroDivisionError, which is modelled by an
explicit crash result, and numpy's ValueError on reducing an empty
array is modelled likewise.
-/

/-- State of a Box from Box.py: current position, mass, length,
velocity, the construction-time snapshots, the derived momentum, and
the four history sequences seeded at construction. -/
structure Box where
  x : ℚ
  m : ℚ
  l : ℚ
  v : ℚ
  v0 : ℚ
  x0 : ℚ
  p : ℚ
  x_hist : List ℚ
  v_hist : List ℚ
  p_hist : List ℚ
  times : List ℚ
deriving Repr, DecidableEq

/-- Errors raised by Box.py: the two ValueError cases of the
constructor and the ValueError of update on a negative time. -/
inductive BoxErr where
  | invalidMass
  | invalidLength
  | invalidTime
deriving Repr, DecidableEq

/-- Model of Box.__init__ from Box.py: mass and length are validated
(raising for values less than or equal to zero), momentum is m times
v0, and every history starts as a one-element list at time 0. -/
def Box.init (x0 m v0 l : ℚ) : Except BoxErr Box :=
  if m ≤ 0 then .error .invalidMass
  else if l ≤ 0 then .error .invalidLength
  else .ok { x := x0, m := m, l := l, v := v0, v0 := v0, x0 := x0,
             p := m * v0,
             x_hist := [x0], v_hist := [v0], p_hist := [m * v0],
             times := [0] }

/-- The assignments and appends performed by a successful Box.update
call: position, velocity and momentum are set, and one entry is
appended to each history; the appended time is t plus the last
recorded time. -/
def Box.updated (b : Box) (v x t : ℚ) : Box :=
  { b with
    x := x, v := v, p := b.m * v,
    x_hist := b.x_hist ++ [x],
    v_hist := b.v_hist ++ [v],
    p_hist := b.p_hist ++ [b.m * v],
    times := b.times ++ [t + b.times.getLastD 0] }

/-- Model of Box.update from Box.py: raises ValueError when t is
negative (before any assignment, so the box is untouched on failure),
otherwise performs the assignments and appends of Box.updated. -/
def Box.update (b : Box) (v x t : ℚ) : Except BoxErr Box :=
  if t < 0 then .error .invalidTime
  else .ok (b.updated v x t)

/-- Model of Box.check_overlap from Box.py: the chained Python
comparison x2 < x1 + l1 <= x2 + l2 decides whether the overlap
exception is raised; true means it raises. -/
def Box.check_overlap (b1 b2 : Box) : Bool :=
  decide (b2.x0 < b1.x0 + b1.l) && decide (b1.x0 + b1.l ≤ b2.x0 + b2.l)

/-- Spec-side footprint intersection, written from the words of the
spec for comparison with Box.check_overlap: the two construction-time
intervals, each from the initial position to initial position plus
length, intersect. -/
def footprints_intersect (b1 b2 : Box) : Prop :=
  max b1.x0 b2.x0 < min (b1.x0 + b1.l) (b2.x0 + b2.l)

instance (b1 b2 : Box) : Decidable (footprints_intersect b1 b2) := by
  unfold footprints_intersect; infer_instance

/-- Kind of an event processed by the loop of elastic_collision_sim;
kept as ghost data so that events of each kind can be counted. -/
inductive Event where
  | bounce
  | collide
deriving Repr, DecidableEq

/-- Loop state of elastic_collision_sim: the two boxes, the collisions
counter, and a ghost log of the events processed so far. -/
structure SimState where
  b1 : Box
  b2 : Box
  collisions : ℕ
  events : List Event
deriving Repr, DecidableEq

/-- Result of one loop iteration: term models the break of the
termination branch, next a completed event, divZero the
ZeroDivisionError of the time-to-contact division, timeErr a
ValueError raised inside Box.update.  A crash carries the state as it
is at the moment the exception propagates. -/
inductive StepRes where
  | term (s : SimState)
  | next (s : SimState)
  | divZero (s : SimState)
  | timeErr (s : SimState)
deriving Repr, DecidableEq

/-- The state carried by a step result. -/
def StepRes.state : StepRes → SimState
  | .term s => s
  | .next s => s
  | .divZero s => s
  | .timeErr s => s

/-- Whether a step result is a completed event. -/
def StepRes.isNext : StepRes → Bool
  | .next _ => true
  | _ => false

/-- Tail of a loop iteration of elastic_collision_sim once the branch
has produced t, v1f and v2f: the counter is incremented, then Box1 and
Box2 are updated in that order; a negative t makes the first update
raise, mirrored by timeErr. -/
def stepWith (s : SimState) (e : Event) (t v1f v2f : ℚ) : StepRes :=
  let c := s.collisions + 1
  match s.b1.update v1f (s.b1.x + s.b1.v * t) t with
  | .error _ => .timeErr { s with collisions := c }
  | .ok b1n =>
    match s.b2.update v2f (s.b2.x + s.b2.v * t) t with
    | .error _ => .timeErr { s with b1 := b1n, collisions := c }
    | .ok b2n =>
      .next { b1 := b1n, b2 := b2n, collisions := c,
              events := s.events ++ [e] }

/-- One iteration of the while loop of elastic_collision_sim from
tools.py.  Branch order follows the source: wall bounce when v1 is
negative, the termination break when v1 < v2 and v2 > 0, and otherwise
the mutual elastic collision, whose time-to-contact division raises
ZeroDivisionError when v2 - v1 is zero.  Masses of constructed boxes
are positive, so the m1 + m2 denominators never raise. -/
def simStep (left_bound : ℚ) (s : SimState) : StepRes :=
  let m1 := s.b1.m
  let x1 := s.b1.x
  let x2 := s.b2.x
  let l1 := s.b1.l
  let m2 := s.b2.m
  let v1 := s.b1.v
  let v2 := s.b2.v
  if v1 < 0 then
    let dx := |x1 - left_bound|
    let t := dx / |v1|
    stepWith s .bounce t (-v1) v2
  else if v1 < v2 ∧ 0 < v2 then
    .term s
  else if v2 - v1 = 0 then
    .divZero s
  else
    let t := (x1 + l1 - x2) / (v2 - v1)
    let v1f := ((m1 - m2) * v1 + 2 * m2 * v2) / (m1 + m2)
    let v2f := ((m2 - m1) * v2 + 2 * m1 * v1) / (m1 + m2)
    stepWith s .collide t v1f v2f

/-- Model of np.diff: consecutive differences of a list. -/
def diffs : List ℚ → List ℚ
  | [] => []
  | [_] => []
  | a :: b :: rest => (b - a) :: diffs (b :: rest)

/-- Model of np.min over np.diff of the left box's times; none models
the ValueError numpy raises when reducing an empty array. -/
def dtMin (l : List ℚ) : Option ℚ :=
  (diffs l).min?

/-- Outcome of running the loop under a fuel bound: finished carries
the final state and the dt_min value of the report, minCrash models
the numpy ValueError raised when the break happens with a single
recorded time, divZero and timeErr carry over the step crashes, and
fuelOut only reports fuel exhaustion of the model (the source loop is
unbounded). -/
inductive RunRes where
  | finished (s : SimState) (dt_min : ℚ)
  | minCrash (s : SimState)
  | divZero (s : SimState)
  | timeErr (s : SimState)
  | fuelOut (s : SimState)
deriving Repr, DecidableEq

/-- The state carried by a run result. -/
def RunRes.state : RunRes → SimState
  | .finished s _ => s
  | .minCrash s => s
  | .divZero s => s
  | .timeErr s => s
  | .fuelOut s => s

/-- Whether a run reached the termination branch and returned. -/
def RunRes.isFinished : RunRes → Bool
  | .finished _ _ => true
  | _ => false

/-- Whether a run died on the time-to-contact division by zero. -/
def RunRes.isDivZero : RunRes → Bool
  | .divZero _ => true
  | _ => false

/-- Fuel-bounded model of the while loop of elastic_collision_sim:
iterate simStep until the termination break, a crash, or fuel runs
out; on the break, dt_min is computed from the left box's times. -/
def runLoop (left_bound : ℚ) : ℕ → SimState → RunRes
  | 0, s => .fuelOut s
  | n + 1, s =>
    match simStep left_bound s with
    | .term sf =>
      match dtMin sf.b1.times with
      | none => .minCrash sf
      | some d => .finished sf d
    | .next sn => runLoop left_bound n sn
    | .divZero sc => .divZero sc
    | .timeErr sc => .timeErr sc

/-- Precondition failures of elastic_collision_sim, in source order:
the overlap exception of check_overlap, the left-boundary exception,
and the ordering exception. -/
inductive SimFail where
  | overlapF
  | boundaryF
  | orderingF
deriving Repr, DecidableEq

/-- Model of elastic_collision_sim from tools.py: the three
precondition checks in source order, then the event loop started on
the two boxes with a zero counter and an empty ghost log. -/
def elastic_collision_sim (fuel : ℕ) (b1 b2 : Box) (left_bound : ℚ) :
    Except SimFail RunRes :=
  if b1.check_overlap b2 then .error .overlapF
  else if b1.x0 < left_bound ∨ b2.x0 < left_bound then .error .boundaryF
  else if b2.x0 < b1.x0 then .error .orderingF
  else .ok (runLoop left_bound fuel
    { b1 := b1, b2 := b2, collisions := 0, events := [] })

/-- The box produced by a successful Box.init call with the given
arguments. -/
def boxOf (x0 m v0 l : ℚ) : Box :=
  { x := x0, m := m, l := l, v := v0, v0 := v0, x0 := x0,
    p := m * v0, x_hist := [x0], v_hist := [v0], p_hist := [m * v0],
    times := [0] }

/-- Box states reachable by a successful construction followed by any
sequence of successful update calls. -/
inductive Box.Reached : Box → Prop
  | init (x0 m v0 l : ℚ) (b : Box) :
      Box.init x0 m v0 l = .ok b → Box.Reached b
  | update (b : Box) (v x t : ℚ) (b2 : Box) :
      Box.Reached b → b.update v x t = .ok b2 → Box.Reached b2

/-- Concrete loop state used in examples: left box at 2 moving left at
speed 1, right box at 5 moving right at speed 1. -/
def sBounce : SimState :=
  { b1 := boxOf 2 1 (-1) 1, b2 := boxOf 5 1 1 1,
    collisions := 0, events := [] }

/-- Concrete loop state of the equal-mass scenario: left box of mass 1
at rest at 2, right box of mass 1 at 5 approaching at speed 1. -/
def sEqualMass : SimState :=
  { b1 := boxOf 2 1 0 1, b2 := boxOf 5 1 (-1) 1,
    collisions := 0, events := [] }

theorem Box.init_ok (x0 m v0 l : ℚ) (hm : 0 < m) (hl : 0 < l) :
    Box.init x0 m v0 l = .ok (boxOf x0 m v0 l) := by
  unfold Box.init boxOf
  rw [if_neg (not_le.mpr hm), if_neg (not_le.mpr hl)]

theorem Box.update_ok {b : Box} {v x t : ℚ} {b2 : Box} :
    b.update v x t = .ok b2 ↔ ¬ t < 0 ∧ b2 = b.updated v x t := by
  unfold Box.update
  split_ifs with h <;> simp [h, eq_comm]

theorem stepWith_ok (s : SimState) (e : Event) (t v1f v2f : ℚ)
    (ht : ¬ t < 0) :
    stepWith s e t v1f v2f = .next
      { b1 := s.b1.updated v1f (s.b1.x + s.b1.v * t) t,
        b2 := s.b2.updated v2f (s.b2.x + s.b2.v * t) t,
        collisions := s.collisions + 1,
        events := s.events ++ [e] } := by
  simp only [stepWith, Box.update, if_neg ht]

theorem stepWith_next_shape {s : SimState} {e : Event} {t v1f v2f : ℚ}
    {sn : SimState} (h : stepWith s e t v1f v2f = .next sn) :
    ¬ t < 0 ∧
    sn = { b1 := s.b1.updated v1f (s.b1.x + s.b1.v * t) t,
           b2 := s.b2.updated v2f (s.b2.x + s.b2.v * t) t,
           collisions := s.collisions + 1,
           events := s.events ++ [e] } := by
  by_cases ht : t < 0
  · exfalso
    unfold stepWith Box.update at h
    rw [if_pos ht] at h
    simp at h
  · rw [stepWith_ok s e t v1f v2f ht] at h
    injection h with h
    exact ⟨ht, h.symm⟩

theorem stepWith_not_term {s : SimState} {e : Event} {t v1f v2f : ℚ}
    {sn : SimState} : stepWith s e t v1f v2f ≠ .term sn := by
  unfold stepWith
  cases s.b1.update v1f (s.b1.x + s.b1.v * t) t with
  | error e1 => simp
  | ok b1n =>
    cases s.b2.update v2f (s.b2.x + s.b2.v * t) t with
    | error e2 => simp
    | ok b2n => simp

theorem simStep_next_cases {lb : ℚ} {s sn : SimState}
    (h : simStep lb s = .next sn) :
    (s.b1.v < 0 ∧
      stepWith s .bounce (|s.b1.x - lb| / |s.b1.v|) (-s.b1.v) s.b2.v
        = .next sn) ∨
    (¬ s.b1.v < 0 ∧ ¬ (s.b1.v < s.b2.v ∧ 0 < s.b2.v) ∧
      ¬ s.b2.v - s.b1.v = 0 ∧
      stepWith s .collide
        ((s.b1.x + s.b1.l - s.b2.x) / (s.b2.v - s.b1.v))
        (((s.b1.m - s.b2.m) * s.b1.v + 2 * s.b2.m * s.b2.v)
          / (s.b1.m + s.b2.m))
        (((s.b2.m - s.b1.m) * s.b2.v + 2 * s.b1.m * s.b1.v)
          / (s.b1.m + s.b2.m)) = .next sn) := by
  simp only [simStep] at h
  split_ifs at h with h1 h2 h3
  · exact .inl ⟨h1, h⟩
  · exact .inr ⟨h1, h2, h3, h⟩

theorem simStep_term_shape {lb : ℚ} {s sn : SimState}
    (h : simStep lb s = .term sn) :
    sn = s ∧ ¬ s.b1.v < 0 ∧ s.b1.v < s.b2.v ∧ 0 < s.b2.v := by
  simp only [simStep] at h
  split_ifs at h with h1 h2 h3
  · exact absurd h stepWith_not_term
  · injection h with h
    exact ⟨h.symm, h1, h2⟩
  · exact absurd h stepWith_not_term

/-- C1 (corrected): in the source the counter increment is shared by
the wall-bounce branch and the mutual-collision branch, so every
completed event increments the collision count by exactly 1, wall
bounces included, and only the termination branch leaves it
unchanged. -/
theorem collision_count_per_event (lb : ℚ) (s sn : SimState) :
    (simStep lb s = .next sn → sn.collisions = s.collisions + 1) ∧
    (simStep lb s = .term sn → sn.collisions = s.collisions) := by
  constructor
  · intro h
    rcases simStep_next_cases h with ⟨_, hs⟩ | ⟨_, _, _, hs⟩ <;>
      rw [(stepWith_next_shape hs).2]
  · intro h
    rw [(simStep_term_shape h).1]

/-- The state one wall-bounce step after sBounce, written out in
full: the left box bounced at the wall after 2 seconds, the right box
kept moving right. -/
def sBounceNext : SimState :=
  { b1 := { x := 0, m := 1, l := 1, v := 1, v0 := -1, x0 := 2, p := 1,
            x_hist := [2, 0], v_hist := [-1, 1], p_hist := [-1, 1],
            times := [0, 2] },
    b2 := { x := 7, m := 1, l := 1, v := 1, v0 := 1, x0 := 5, p := 1,
            x_hist := [5, 7], v_hist := [1, 1], p_hist := [1, 1],
            times := [0, 2] },
    collisions := 1, events := [.bounce] }

theorem simStep_sBounce : simStep 0 sBounce = .next sBounceNext := by
  norm_num [simStep, stepWith, Box.update, Box.updated, sBounce,
    sBounceNext, boxOf, abs_of_nonneg, abs_of_nonpos]

/-- Witness for C1: a concrete wall-bounce step increments the
counter by one. -/
theorem collision_count_per_event_witness :
    simStep 0 sBounce = .next sBounceNext ∧
    sBounceNext.collisions = sBounce.collisions + 1 :=
  ⟨simStep_sBounce,
   (collision_count_per_event 0 sBounce sBounceNext).1 simStep_sBounce⟩

/-- Counterexample for C1 as stated: a wall-bounce event (the step on
sBounce, whose left box moves toward the wall) does not leave the
collision count unchanged; it raises it from 0 to 1. -/
theorem wall_bounce_counts_cex :
    (simStep 0 sBounce).isNext = true ∧
    (simStep 0 sBounce).state.events = [Event.bounce] ∧
    sBounce.collisions = 0 ∧
    (simStep 0 sBounce).state.collisions = 1 := by
  norm_num [simStep, stepWith, Box.update, Box.updated, sBounce, boxOf,
    StepRes.isNext, StepRes.state, abs_of_nonneg, abs_of_nonpos]

/-- C2 (corrected): the engine fails with the overlap error exactly
when the chained comparison of check_overlap holds, that is when the
right box's left edge lies strictly left of the left box's right edge
and that right edge lies at or left of the right box's right edge;
footprints intersecting in any other way, such as one interval
entirely inside the other, are not detected. -/
theorem overlap_error_iff (fuel : ℕ) (b1 b2 : Box) (lb : ℚ) :
    elastic_collision_sim fuel b1 b2 lb = .error .overlapF ↔
      (b2.x0 < b1.x0 + b1.l ∧ b1.x0 + b1.l ≤ b2.x0 + b2.l) := by
  unfold elastic_collision_sim Box.check_overlap
  split_ifs with h1 h2 h3 <;> simp_all

/-- Counterexample for C2 as stated: the right box's footprint is
entirely contained in the left box's footprint, so the two intervals
intersect, yet check_overlap does not raise and the engine proceeds
past the precondition phase instead of failing with the overlap
error. -/
theorem contained_overlap_missed_cex :
    footprints_intersect (boxOf 0 1 0 10) (boxOf 2 1 0 1) ∧
    Box.check_overlap (boxOf 0 1 0 10) (boxOf 2 1 0 1) = false ∧
    (elastic_collision_sim 5 (boxOf 0 1 0 10) (boxOf 2 1 0 1) 0).toOption.isSome
      = true := by
  norm_num [footprints_intersect, Box.check_overlap, elastic_collision_sim,
    boxOf, Except.toOption]

/-- C3 (code bug): with both boxes constructed validly and moving at
the same positive velocity no further collision is physically
possible, yet the loop falls through to the default branch and the
time-to-contact division divides by zero on the very first iteration;
the run crashes instead of terminating normally. -/
theorem equal_velocity_divzero_bug :
    (elastic_collision_sim 1 (boxOf 0 1 1 1) (boxOf 5 1 1 1) 0).toOption =
      some (RunRes.divZero
        { b1 := boxOf 0 1 1 1, b2 := boxOf 5 1 1 1,
          collisions := 0, events := [] }) := by
  norm_num [elastic_collision_sim, runLoop, simStep, stepWith,
    Box.check_overlap, boxOf, Except.toOption]

/-- Counterexample for C4 as stated: the equal-mass run from
sEqualMass finishes with 3 counted events, not 1, and the iteration
after the first collision processes a wall bounce instead of
triggering termination. -/
theorem equal_mass_run_cex :
    (elastic_collision_sim 10 sEqualMass.b1 sEqualMass.b2 0).toOption.map
        (fun r => (r.isFinished, r.state.collisions, r.state.events)) =
      some (true, 3, [Event.collide, Event.bounce, Event.collide]) := by
  norm_num [elastic_collision_sim, runLoop, simStep, stepWith, Box.update,
    Box.updated, Box.check_overlap, sEqualMass, boxOf, dtMin, diffs,
    RunRes.isFinished, RunRes.state, abs_of_nonneg, abs_of_nonpos,
    Except.toOption]

/-- C4 (corrected): in the equal-mass scenario the first event is a
mutual collision that exchanges the velocities (the left box leaves at
speed 1 toward the wall, the right box stops), but the termination
condition does not trigger on the following iteration: a wall bounce
and a second mutual collision follow, and the run finishes with 3
counted events and final velocities 0 and 1. -/
theorem equal_mass_run :
    ((simStep 0 sEqualMass).isNext = true ∧
     (simStep 0 sEqualMass).state.events = [Event.collide] ∧
     (simStep 0 sEqualMass).state.b1.v = -1 ∧
     (simStep 0 sEqualMass).state.b2.v = 0) ∧
    (elastic_collision_sim 10 sEqualMass.b1 sEqualMass.b2 0).toOption.map
        (fun r => (r.isFinished, r.state.collisions, r.state.events,
                   r.state.b1.v, r.state.b2.v)) =
      some (true, 3, [Event.collide, Event.bounce, Event.collide], 0, 1) := by
  norm_num [elastic_collision_sim, runLoop, simStep, stepWith, Box.update,
    Box.updated, Box.check_overlap, sEqualMass, boxOf, dtMin, diffs,
    RunRes.isFinished, RunRes.state, StepRes.isNext, StepRes.state,
    abs_of_nonneg, abs_of_nonpos, Except.toOption]

/-- Property stated by the spec for a mutual-collision iteration at
state s: the step completes an event, logs a mutual collision, sets
the velocities by the one-dimensional elastic-collision formula,
advances both positions by the pre-collision velocities times the
time-to-contact, and appends the cumulative event time to both
boxes. -/
def mutualCollisionSpec (lb : ℚ) (s : SimState) : Prop :=
  (simStep lb s).isNext = true ∧
  (simStep lb s).state.events = s.events ++ [Event.collide] ∧
  (simStep lb s).state.b1.v =
    ((s.b1.m - s.b2.m) * s.b1.v + 2 * s.b2.m * s.b2.v)
      / (s.b1.m + s.b2.m) ∧
  (simStep lb s).state.b2.v =
    ((s.b2.m - s.b1.m) * s.b2.v + 2 * s.b1.m * s.b1.v)
      / (s.b1.m + s.b2.m) ∧
  (simStep lb s).state.b1.x =
    s.b1.x + s.b1.v * ((s.b1.x + s.b1.l - s.b2.x) / (s.b2.v - s.b1.v)) ∧
  (simStep lb s).state.b2.x =
    s.b2.x + s.b2.v * ((s.b1.x + s.b1.l - s.b2.x) / (s.b2.v - s.b1.v)) ∧
  (simStep lb s).state.b1.times =
    s.b1.times ++ [(s.b1.x + s.b1.l - s.b2.x) / (s.b2.v - s.b1.v)
      + s.b1.times.getLastD 0] ∧
  (simStep lb s).state.b2.times =
    s.b2.times ++ [(s.b1.x + s.b1.l - s.b2.x) / (s.b2.v - s.b1.v)
      + s.b2.times.getLastD 0]

/-- C5 (confirmed): whenever the wall-bounce and termination
conditions both fail and the mutual-collision branch produces a
nonnegative time from a nonzero velocity difference (that is, a
mutual collision event actually completes), the event follows the
closed-form time, position and velocity formulas of the spec. -/
theorem mutual_collision_formulas (lb : ℚ) (s : SimState)
    (h1 : ¬ s.b1.v < 0)
    (h2 : ¬ (s.b1.v < s.b2.v ∧ 0 < s.b2.v))
    (h3 : ¬ s.b2.v - s.b1.v = 0)
    (h4 : ¬ (s.b1.x + s.b1.l - s.b2.x) / (s.b2.v - s.b1.v) < 0) :
    mutualCollisionSpec lb s := by
  have hstep : simStep lb s =
      stepWith s .collide
        ((s.b1.x + s.b1.l - s.b2.x) / (s.b2.v - s.b1.v))
        (((s.b1.m - s.b2.m) * s.b1.v + 2 * s.b2.m * s.b2.v)
          / (s.b1.m + s.b2.m))
        (((s.b2.m - s.b1.m) * s.b2.v + 2 * s.b1.m * s.b1.v)
          / (s.b1.m + s.b2.m)) := by
    simp only [simStep, if_neg h1, if_neg h2, if_neg h3]
  unfold mutualCollisionSpec
  rw [hstep, stepWith_ok _ _ _ _ _ h4]
  simp [StepRes.isNext, StepRes.state, Box.updated]

/-- Witness for C5 at the equal-mass state: the hypotheses hold there
and the mutual-collision specification follows. -/
theorem mutual_collision_formulas_witness :
    (¬ sEqualMass.b1.v < 0) ∧
    (¬ (sEqualMass.b1.v < sEqualMass.b2.v ∧ 0 < sEqualMass.b2.v)) ∧
    (¬ sEqualMass.b2.v - sEqualMass.b1.v = 0) ∧
    (¬ (sEqualMass.b1.x + sEqualMass.b1.l - sEqualMass.b2.x)
        / (sEqualMass.b2.v - sEqualMass.b1.v) < 0) ∧
    mutualCollisionSpec 0 sEqualMass :=
  ⟨by norm_num [sEqualMass, boxOf], by norm_num [sEqualMass, boxOf],
   by norm_num [sEqualMass, boxOf], by norm_num [sEqualMass, boxOf],
   mutual_collision_formulas 0 sEqualMass
     (by norm_num [sEqualMass, boxOf]) (by norm_num [sEqualMass, boxOf])
     (by norm_num [sEqualMass, boxOf]) (by norm_num [sEqualMass, boxOf])⟩

/-- Property stated by the spec for a wall-bounce iteration at state
s: the step completes an event, logs a bounce, negates the left box's
velocity, keeps the right box's velocity, advances both positions by
the pre-event velocities times the bounce time, and appends the
cumulative event time to both boxes. -/
def wallBounceSpec (lb : ℚ) (s : SimState) : Prop :=
  (simStep lb s).isNext = true ∧
  (simStep lb s).state.events = s.events ++ [Event.bounce] ∧
  (simStep lb s).state.b1.v = -s.b1.v ∧
  (simStep lb s).state.b2.v = s.b2.v ∧
  (simStep lb s).state.b1.x =
    s.b1.x + s.b1.v * (|s.b1.x - lb| / |s.b1.v|) ∧
  (simStep lb s).state.b2.x =
    s.b2.x + s.b2.v * (|s.b1.x - lb| / |s.b1.v|) ∧
  (simStep lb s).state.b1.times =
    s.b1.times ++ [|s.b1.x - lb| / |s.b1.v| + s.b1.times.getLastD 0] ∧
  (simStep lb s).state.b2.times =
    s.b2.times ++ [|s.b1.x - lb| / |s.b1.v| + s.b2.times.getLastD 0]

/-- C6 (confirmed): whenever the left box's velocity is negative the
iteration performs a wall bounce with the time, velocity and position
updates stated by the spec; the bounce time is a quotient of absolute
values, hence nonnegative, so both updates always succeed. -/
theorem wall_bounce_formulas (lb : ℚ) (s : SimState)
    (h : s.b1.v < 0) : wallBounceSpec lb s := by
  have ht : ¬ |s.b1.x - lb| / |s.b1.v| < 0 :=
    not_lt.mpr (div_nonneg (abs_nonneg _) (abs_nonneg _))
  have hstep : simStep lb s =
      stepWith s .bounce (|s.b1.x - lb| / |s.b1.v|) (-s.b1.v) s.b2.v := by
    simp only [simStep, if_pos h]
  unfold wallBounceSpec
  rw [hstep, stepWith_ok _ _ _ _ _ ht]
  simp [StepRes.isNext, StepRes.state, Box.updated]

/-- Witness for C6 at the sBounce state. -/
theorem wall_bounce_formulas_witness :
    sBounce.b1.v < 0 ∧ wallBounceSpec 0 sBounce :=
  ⟨by norm_num [sBounce, boxOf],
   wall_bounce_formulas 0 sBounce (by norm_num [sBounce, boxOf])⟩

/-- C7 (confirmed): for every box reachable by a valid construction
followed by successful update calls, the stored momentum equals mass
times velocity. -/
theorem momentum_invariant (b : Box) (hb : b.Reached) :
    b.p = b.m * b.v := by
  induction hb with
  | init x0 m v0 l b h =>
    unfold Box.init at h
    split_ifs at h
    injection h with h
    rw [← h]
  | update b v x t b2 hb hup ih =>
    rcases Box.update_ok.mp hup with ⟨-, rfl⟩
    rfl

/-- Witness for C7 at a concretely constructed box. -/
theorem momentum_invariant_witness :
    Box.Reached (boxOf 3 1 0 1) ∧
    (boxOf 3 1 0 1).p = (boxOf 3 1 0 1).m * (boxOf 3 1 0 1).v :=
  ⟨Box.Reached.init 3 1 0 1 _ (Box.init_ok 3 1 0 1 one_pos one_pos),
   momentum_invariant _
     (Box.Reached.init 3 1 0 1 _ (Box.init_ok 3 1 0 1 one_pos one_pos))⟩

/-- Equality of the four history lengths, at least one entry, and
non-decreasing event times. -/
def histInvariant (b : Box) : Prop :=
  b.x_hist.length = b.times.length ∧
  b.v_hist.length = b.times.length ∧
  b.p_hist.length = b.times.length ∧
  1 ≤ b.times.length ∧
  b.times.Chain' (fun a c => a ≤ c)

/-- C8 (confirmed): every reachable box keeps its four histories the
same length, at least 1, with non-decreasing event times; and every
completed engine event appends exactly one entry to both boxes'
time histories, keeping the two boxes in lockstep. -/
theorem history_invariant :
    (∀ b : Box, b.Reached → histInvariant b) ∧
    (∀ (lb : ℚ) (s sn : SimState), simStep lb s = .next sn →
       sn.b1.times.length = s.b1.times.length + 1 ∧
       sn.b2.times.length = s.b2.times.length + 1) := by
  constructor
  · intro b hb
    induction hb with
    | init x0 m v0 l b h =>
      unfold Box.init at h
      split_ifs at h
      injection h with h
      rw [← h]
      exact ⟨rfl, rfl, rfl, le_refl 1, List.chain'_singleton 0⟩
    | update b v x t b2 hb hup ih =>
      rcases Box.update_ok.mp hup with ⟨ht, rfl⟩
      obtain ⟨h1, h2, h3, h4, h5⟩ := ih
      refine ⟨?_, ?_, ?_, ?_, ?_⟩
      · simp [Box.updated, h1]
      · simp [Box.updated, h2]
      · simp [Box.updated, h3]
      · simp [Box.updated]
      · simp only [Box.updated]
        rw [List.chain'_append]
        refine ⟨h5, List.chain'_singleton _, ?_⟩
        intro a ha y hy
        rw [List.head?_cons, Option.mem_def, Option.some.injEq] at hy
        subst hy
        rw [Option.mem_def] at ha
        have hlast : b.times.getLastD 0 = a := by
          rw [List.getLastD_eq_getLast?, ha, Option.getD_some]
        rw [hlast]
        exact le_add_of_nonneg_left (not_lt.mp ht)
  · intro lb s sn h
    rcases simStep_next_cases h with ⟨_, hs⟩ | ⟨_, _, _, hs⟩ <;>
    · rw [(stepWith_next_shape hs).2]
      constructor <;> simp [Box.updated]

/-- Witness for C8: the invariant at a concretely constructed box and
the lockstep growth across the concrete wall-bounce step. -/
theorem history_invariant_witness :
    Box.Reached (boxOf 3 1 0 1) ∧ histInvariant (boxOf 3 1 0 1) ∧
    simStep 0 sBounce = .next sBounceNext ∧
    sBounceNext.b1.times.length = sBounce.b1.times.length + 1 ∧
    sBounceNext.b2.times.length = sBounce.b2.times.length + 1 :=
  ⟨Box.Reached.init 3 1 0 1 _ (Box.init_ok 3 1 0 1 one_pos one_pos),
   history_invariant.1 _
     (Box.Reached.init 3 1 0 1 _ (Box.init_ok 3 1 0 1 one_pos one_pos)),
   simStep_sBounce,
   (history_invariant.2 0 sBounce sBounceNext simStep_sBounce).1,
   (history_invariant.2 0 sBounce sBounceNext simStep_sBounce).2⟩

/-- C9 (corrected): each precondition failure of a run is decided
purely by construction-time fields and happens in the phase before
the loop, in source order (overlap, then boundary, then ordering),
and an invalid mass or length already fails at construction; when no
precondition fails, the loop starts from the two untouched input
boxes with a zero counter and no processed events.  A run that passes
the preconditions may still crash later, after events have mutated
box state. -/
theorem precondition_phase (fuel : ℕ) (b1 b2 : Box) (lb : ℚ) :
    (elastic_collision_sim fuel b1 b2 lb = .error .overlapF ↔
       b1.check_overlap b2 = true) ∧
    (elastic_collision_sim fuel b1 b2 lb = .error .boundaryF ↔
       b1.check_overlap b2 = false ∧ (b1.x0 < lb ∨ b2.x0 < lb)) ∧
    (elastic_collision_sim fuel b1 b2 lb = .error .orderingF ↔
       b1.check_overlap b2 = false ∧ ¬ (b1.x0 < lb ∨ b2.x0 < lb) ∧
       b2.x0 < b1.x0) ∧
    (∀ x0 m v0 l : ℚ, (Box.init x0 m v0 l).toOption = none ↔
       m ≤ 0 ∨ l ≤ 0) ∧
    (b1.check_overlap b2 = false → ¬ (b1.x0 < lb ∨ b2.x0 < lb) →
     ¬ b2.x0 < b1.x0 →
     elastic_collision_sim fuel b1 b2 lb =
       .ok (runLoop lb fuel
         { b1 := b1, b2 := b2, collisions := 0, events := [] })) := by
  refine ⟨?_, ?_, ?_, ?_, ?_⟩
  · unfold elastic_collision_sim
    split_ifs with h1 h2 h3 <;> simp_all
  · unfold elastic_collision_sim
    split_ifs with h1 h2 h3 <;> simp_all
  · unfold elastic_collision_sim
    split_ifs with h1 h2 h3 <;> simp_all
  · intro x0 m v0 l
    unfold Box.init
    split_ifs with h1 h2 <;> simp_all [Except.toOption]
  · intro h1 h2 h3
    simp [elastic_collision_sim, h1, h2, h3]

/-- Counterexample for C9 as stated: this run passes every
precondition, processes a wall bounce that mutates both boxes'
histories, and then crashes on a zero velocity difference; so a run
can fail while neither fully succeeding nor failing before mutating
Body state. -/
theorem midrun_crash_after_mutation_cex :
    (elastic_collision_sim 10 (boxOf 2 1 (-1) 1) (boxOf 5 1 1 1) 0).toOption.map
        (fun r => (r.isDivZero, r.state.b1.x_hist.length, r.state.collisions)) =
      some (true, 2, 1) := by
  norm_num [elastic_collision_sim, runLoop, simStep, stepWith, Box.update,
    Box.updated, Box.check_overlap, boxOf, RunRes.isDivZero, RunRes.state,
    abs_of_nonneg, abs_of_nonpos, Except.toOption]

/-- Witness for C9 at a concrete valid pair of boxes: no precondition
fails and the run is the loop started on the untouched inputs. -/
theorem precondition_phase_witness :
    Box.check_overlap (boxOf 3 1 0 1) (boxOf 5 1 0 1) = false ∧
    ¬ ((boxOf 3 1 0 1).x0 < 0 ∨ (boxOf 5 1 0 1).x0 < 0) ∧
    ¬ (boxOf 5 1 0 1).x0 < (boxOf 3 1 0 1).x0 ∧
    elastic_collision_sim 1 (boxOf 3 1 0 1) (boxOf 5 1 0 1) 0 =
      .ok (runLoop 0 1 { b1 := boxOf 3 1 0 1, b2 := boxOf 5 1 0 1,
                         collisions := 0, events := [] }) :=
  ⟨by norm_num [Box.check_overlap, boxOf],
   by norm_num [boxOf],
   by norm_num [boxOf],
   (precondition_phase 1 (boxOf 3 1 0 1) (boxOf 5 1 0 1) 0).2.2.2.2
     (by norm_num [Box.check_overlap, boxOf]) (by norm_num [boxOf])
     (by norm_num [boxOf])⟩

/-- C10 (confirmed): update fails with the invalid-time error exactly
when the elapsed time is negative (in the source the raise precedes
every assignment, so position, velocity, momentum and the histories
are untouched on failure), and on success it sets position, velocity
and momentum and appends one entry per history, the new cumulative
time being the elapsed time plus the last recorded event time. -/
theorem advance_contract (b : Box) (v x t : ℚ) :
    (b.update v x t = .error .invalidTime ↔ t < 0) ∧
    (∀ bn : Box, b.update v x t = .ok bn →
       bn.x = x ∧ bn.v = v ∧ bn.p = b.m * v ∧
       bn.x_hist = b.x_hist ++ [x] ∧
       bn.v_hist = b.v_hist ++ [v] ∧
       bn.p_hist = b.p_hist ++ [b.m * v] ∧
       bn.times = b.times ++ [t + b.times.getLastD 0]) ∧
    (∀ (bn : Box) (hne : b.times ≠ []), b.update v x t = .ok bn →
       bn.times = b.times ++ [t + b.times.getLast hne]) := by
  refine ⟨?_, ?_, ?_⟩
  · unfold Box.update
    split_ifs with h <;> simp [h]
  · intro bn hok
    rcases Box.update_ok.mp hok with ⟨-, rfl⟩
    exact ⟨rfl, rfl, rfl, rfl, rfl, rfl, rfl⟩
  · intro bn hne hok
    rcases Box.update_ok.mp hok with ⟨-, rfl⟩
    show b.times ++ [t + b.times.getLastD 0]
      = b.times ++ [t + b.times.getLast hne]
    rw [List.getLastD_eq_getLast?, List.getLast?_eq_getLast b.times hne,
      Option.getD_some]

/-- Witness for C10: a negative elapsed time is rejected and a
nonnegative one appends the cumulative time. -/
theorem advance_contract_witness :
    ((-1 : ℚ) < 0 ∧
     (boxOf 3 1 0 1).update 2 4 (-1) = .error .invalidTime) ∧
    ((boxOf 3 1 0 1).update 2 4 5 = .ok ((boxOf 3 1 0 1).updated 2 4 5) ∧
     ((boxOf 3 1 0 1).updated 2 4 5).times =
       (boxOf 3 1 0 1).times ++ [5 + (boxOf 3 1 0 1).times.getLastD 0]) :=
  ⟨⟨by norm_num,
    (advance_contract (boxOf 3 1 0 1) 2 4 (-1)).1.mpr (by norm_num)⟩,
   Box.update_ok.mpr ⟨by norm_num, rfl⟩,
   ((advance_contract (boxOf 3 1 0 1) 2 4 5).2.1 _
     (Box.update_ok.mpr ⟨by norm_num, rfl⟩)).2.2.2.2.2.2⟩
